import Mathlib

/-!
Shallow embedding of the routerrpc sub-server of the repository (the Server
type of the routerrpc package: Start, Stop, HtlcInterceptor, SendPaymentV2,
SendToRouteV2, trackPayment, SubscribeHtlcEvents, QueryMissionControl and
BuildRoute) together with models of the collaborator behaviour the source
delegates to (control-tower subscriptions and the duplicate-payment check of
SendPaymentAsync, which live outside the embedded file and are modelled from
the spec where a claim depends on them).

The int32 fields the Go code manipulates with sync/atomic are kept as their
unsigned two's-complement representative in [0, 2^32); the for/select stream
loops are embedded as structural recursions over the list of events the
select statement wakes on, in the order it wakes on them.
-/

set_option maxHeartbeats 1000000

/-- gRPC status codes the router server's error transformation produces. -/
inductive GrpcCode
  | alreadyExists
  | notFound
  deriving DecidableEq

/-- Lifecycle status of a channeldb MPPayment. -/
inductive PaymentStatus
  | inFlight
  | succeeded
  | failed
  deriving DecidableEq

/-- Error codes of the er.R errors the embedded server code inspects or
produces. -/
inductive ErCode
  | paymentInFlight
  | alreadyPaid
  | paymentNotInitiated
  | serverShuttingDown
  | interceptorAlreadyExists
  | generic (msg : String)
  deriving DecidableEq

/-- Models the err.String() rendering of the error codes above; the exact
wording is irrelevant, only that distinct codes render distinct strings. -/
def ErCode.string : ErCode → String
  | .paymentInFlight => "payment is in transition"
  | .alreadyPaid => "payment is already paid"
  | .paymentNotInitiated => "payment is not initiated"
  | .serverShuttingDown => "routerrpc server shutting down"
  | .interceptorAlreadyExists => "interceptor already exists"
  | .generic msg => msg

/-- An error as a server method returns it: a grpc status error built by
status.Error with a code and a message string, or a native error wrapping an
er.R error code (er.Native). -/
inductive ServerError
  | grpc (code : GrpcCode) (msg : String)
  | native (e : ErCode)
  deriving DecidableEq

def blankMsg : String := ""

/-- Erases the human-readable message of a grpc status error, keeping every
machine-readable field a caller could branch on without string matching. -/
def ServerError.eraseMsg : ServerError → ServerError
  | .grpc c _ => .grpc c blankMsg
  | .native e => .native e

/-- The mutable fields of the routerrpc Server: the started and shutdown
int32 counters, the forwardInterceptorActive int32 flag, and whether the
quit channel has been closed. -/
structure ServerState where
  started : Nat
  shutdown : Nat
  forwardInterceptorActive : Nat
  quitClosed : Bool
  deriving DecidableEq

/-- The state New installs: zeroed atomics and a fresh, open quit channel. -/
def newServer : ServerState :=
  { started := 0, shutdown := 0, forwardInterceptorActive := 0, quitClosed := false }

/-- Server.Start: atomic.AddInt32 on the started counter; both branches
return nil and perform no further action. -/
def Server.Start (st : ServerState) : ServerState × Option ServerError :=
  ({ st with started := (st.started + 1) % 4294967296 }, none)

/-- Outcome of a single Server.Stop call: a normal nil return, or the
runtime panic Go raises when close is called on an already-closed channel. -/
inductive StopOutcome
  | ok
  | doubleClosePanic
  deriving DecidableEq

/-- Server.Stop: atomic.AddInt32 on the wrapping int32 shutdown counter;
when the incremented value equals 1 the quit channel is closed, and a close
of an already-closed channel panics. -/
def Server.Stop (st : ServerState) : ServerState × StopOutcome :=
  if (st.shutdown + 1) % 4294967296 = 1 then
    if st.quitClosed then
      ({ st with shutdown := (st.shutdown + 1) % 4294967296 }, StopOutcome.doubleClosePanic)
    else
      ({ st with shutdown := (st.shutdown + 1) % 4294967296, quitClosed := true },
       StopOutcome.ok)
  else
    ({ st with shutdown := (st.shutdown + 1) % 4294967296 }, StopOutcome.ok)

/-- Iterates Server.Stop n times from st, recording whether any of the calls
hit the double-close panic. -/
def stopIter : Nat → ServerState → ServerState × Bool
  | 0, st => (st, false)
  | n + 1, st =>
    ((Server.Stop (stopIter n st).1).1,
     (stopIter n st).2
       || decide ((Server.Stop (stopIter n st).1).2 = StopOutcome.doubleClosePanic))

/-- atomic.CompareAndSwapInt32 of the forwardInterceptorActive flag from 0
to 1: succeeds, and sets the flag, exactly when the flag is currently 0. -/
def tryAcquireInterceptor (st : ServerState) : ServerState × Bool :=
  if st.forwardInterceptorActive = 0 then
    ({ st with forwardInterceptorActive := 1 }, true)
  else
    (st, false)

/-- The deferred atomic.CompareAndSwapInt32 of forwardInterceptorActive from
1 back to 0, run when HtlcInterceptor returns for any reason. -/
def releaseInterceptor (st : ServerState) : ServerState :=
  if st.forwardInterceptorActive = 1 then
    { st with forwardInterceptorActive := 0 }
  else
    st

/-- Server.HtlcInterceptor: compare-and-set the session flag; on failure
return er.Native(ErrInterceptorAlreadyExists.Default()) with the state left
untouched; on success run the forward interceptor (whose er.R result is the
runResult parameter, nil or an error) and release the flag on every exit
path via the deferred compare-and-swap. -/
def Server.HtlcInterceptor (st : ServerState) (runResult : Option ErCode) :
    ServerState × Option ServerError :=
  if (tryAcquireInterceptor st).2 then
    (releaseInterceptor (tryAcquireInterceptor st).1, runResult.map ServerError.native)
  else
    ((tryAcquireInterceptor st).1,
     some (ServerError.native ErCode.interceptorAlreadyExists))

/-- The routing intent extracted from a SendPaymentRequest; only the payment
hash matters to the embedded control flow. -/
structure Payment where
  paymentHash : Nat
  deriving DecidableEq

/-- What SendPaymentV2 does after its duplicate gate: reject the submission
with an error, or proceed into trackPayment with the given hash and
no-inflight-updates flag. -/
inductive SendPaymentStep
  | reject (e : ServerError)
  | track (hash : Nat) (noInflightUpdates : Bool)
  deriving DecidableEq

def SendPaymentStep.eraseMsg : SendPaymentStep → SendPaymentStep
  | .reject e => .reject e.eraseMsg
  | .track h b => .track h b

/-- Server.SendPaymentV2 up to its tail call into trackPayment: the
extractIntentFromSendRequest result and the Router.SendPaymentAsync result
are inputs; ErrPaymentInFlight and ErrAlreadyPaid are transformed into a
grpc AlreadyExists status carrying err.String(), any other error is returned
natively, and a successful submission proceeds to trackPayment. -/
def Server.SendPaymentV2 (intentResult : Except ErCode Payment)
    (sendPaymentAsync : Payment → Option ErCode)
    (noInflightUpdates : Bool) : SendPaymentStep :=
  match intentResult with
  | .error e => .reject (.native e)
  | .ok payment =>
    match sendPaymentAsync payment with
    | some e =>
      if e = ErCode.paymentInFlight ∨ e = ErCode.alreadyPaid then
        .reject (.grpc GrpcCode.alreadyExists e.string)
      else
        .reject (.native e)
    | none => .track payment.paymentHash noInflightUpdates

/-- Modelled from the spec: Router.SendPaymentAsync (routing package, not in
src/) rejects a duplicate PaymentHash with ErrPaymentInFlight while a
payment for the hash is still in flight and with ErrAlreadyPaid once it
reached a terminal state, and accepts a hash with no prior payment. -/
def sendPaymentAsyncModel (store : Nat → Option PaymentStatus)
    (p : Payment) : Option ErCode :=
  match store p.paymentHash with
  | none => none
  | some PaymentStatus.inFlight => some ErCode.paymentInFlight
  | some PaymentStatus.succeeded => some ErCode.alreadyPaid
  | some PaymentStatus.failed => some ErCode.alreadyPaid

/-- The distinct backend error a duplicate submission produces for a given
prior payment status. -/
def duplicateErr : PaymentStatus → ErCode
  | PaymentStatus.inFlight => ErCode.paymentInFlight
  | PaymentStatus.succeeded => ErCode.alreadyPaid
  | PaymentStatus.failed => ErCode.alreadyPaid

/-- The request fields SendToRouteV2 reads: a possibly-absent raw route and
the raw payment-hash bytes. -/
structure SendToRouteReq where
  route : Option Nat
  paymentHash : List Nat
  deriving DecidableEq

/-- Server.SendToRouteV2: reject a nil route; unmarshal the route and the
hash; call Router.SendToRoute, which may return an attempt record, an error,
or both; when an attempt record is present it is marshaled and returned with
a nil error, dropping the SendToRoute error; otherwise ErrPaymentInFlight
and ErrAlreadyPaid become a grpc AlreadyExists status and any other error is
returned natively. -/
def Server.SendToRouteV2
    (unmarshalRoute : Nat → Except ErCode Nat)
    (makeHash : List Nat → Except ErCode Nat)
    (sendToRoute : Nat → Nat → Option Nat × Option ErCode)
    (marshalAttempt : Nat → Except ErCode Nat)
    (req : SendToRouteReq) : Option Nat × Option ServerError :=
  match req.route with
  | none =>
    (none, some (ServerError.native (ErCode.generic ("unable to send, no routes provided"))))
  | some rawRoute =>
    match unmarshalRoute rawRoute with
    | .error e => (none, some (.native e))
    | .ok rt =>
      match makeHash req.paymentHash with
      | .error e => (none, some (.native e))
      | .ok hsh =>
        match sendToRoute hsh rt with
        | (some attempt, _) =>
          match marshalAttempt attempt with
          | .error e => (none, some (.native e))
          | .ok rpcAttempt => (some rpcAttempt, none)
        | (none, some e) =>
          if e = ErCode.paymentInFlight ∨ e = ErCode.alreadyPaid then
            (none, some (.grpc GrpcCode.alreadyExists e.string))
          else
            (none, some (.native e))
        | (none, none) => (none, none)

/-- A channeldb MPPayment as trackPayment sees it: its status, plus a
sequence tag so distinct update values stay distinct in the model. -/
structure MPPayment where
  status : PaymentStatus
  seq : Nat
  deriving DecidableEq

/-- An lnrpc Payment as produced by RouterBackend.MarshalPayment. -/
structure RpcPayment where
  status : PaymentStatus
  seq : Nat
  deriving DecidableEq

/-- A lossless marshaling, used to instantiate MarshalPayment in theorem
statements. -/
def rpcOf (p : MPPayment) : RpcPayment :=
  { status := p.status, seq := p.seq }

/-- One event the select inside Server.trackPayment can wake on: an update
received from subscription.Updates, that channel reporting closed, the
server quit channel firing, or the stream context being canceled. -/
inductive TrackEvent
  | update (item : MPPayment)
  | closed
  | quitSignal
  | ctxDone (e : ErCode)
  deriving DecidableEq

/-- The for/select loop of Server.trackPayment, as a recursion over the
events the select wakes on in order; collects the payments sent to the
stream, and the second component is none while the loop is still blocked and
some r once the loop returned, r being the returned error (none for nil). -/
def Server.trackPaymentLoop (noInflightUpdates : Bool)
    (marshalPayment : MPPayment → Except ErCode RpcPayment)
    (send : RpcPayment → Option ErCode) :
    List TrackEvent → List RpcPayment × Option (Option ServerError)
  | [] => ([], none)
  | TrackEvent.closed :: _ => ([], some none)
  | TrackEvent.quitSignal :: _ =>
    ([], some (some (ServerError.native ErCode.serverShuttingDown)))
  | TrackEvent.ctxDone e :: _ => ([], some (some (ServerError.native e)))
  | TrackEvent.update item :: rest =>
    if noInflightUpdates ∧ item.status = PaymentStatus.inFlight then
      Server.trackPaymentLoop noInflightUpdates marshalPayment send rest
    else
      match marshalPayment item with
      | .error e => ([], some (some (ServerError.native e)))
      | .ok rpcPayment =>
        match send rpcPayment with
        | some e => ([], some (some (ServerError.native e)))
        | none =>
          (rpcPayment ::
            (Server.trackPaymentLoop noInflightUpdates marshalPayment send rest).1,
           (Server.trackPaymentLoop noInflightUpdates marshalPayment send rest).2)

/-- Server.trackPayment: subscribe to the payment (the SubscribePayment
result is the input); ErrPaymentNotInitiated becomes a grpc NotFound status,
any other subscription error is returned natively, and otherwise the update
loop runs over the subscription events. -/
def Server.trackPayment (subscribeResult : Except ErCode (List TrackEvent))
    (noInflightUpdates : Bool)
    (marshalPayment : MPPayment → Except ErCode RpcPayment)
    (send : RpcPayment → Option ErCode) :
    List RpcPayment × Option (Option ServerError) :=
  match subscribeResult with
  | .error e =>
    if e = ErCode.paymentNotInitiated then
      ([], some (some (ServerError.grpc GrpcCode.notFound e.string)))
    else
      ([], some (some (ServerError.native e)))
  | .ok events => Server.trackPaymentLoop noInflightUpdates marshalPayment send events

/-- Whether a payment status is terminal, i.e. no further updates will ever
be produced for the payment. -/
def paymentTerminal : PaymentStatus → Bool
  | PaymentStatus.inFlight => false
  | PaymentStatus.succeeded => true
  | PaymentStatus.failed => true

/-- A payment as the control tower knows it at subscribe time: the current
state and the later state transitions in order. -/
structure SubscriptionModel where
  current : MPPayment
  future : List MPPayment
  deriving DecidableEq

/-- The last state the subscription will ever deliver. -/
def SubscriptionModel.lastState (s : SubscriptionModel) : MPPayment :=
  s.future.getLastD s.current

/-- Modelled from the spec: the payment subscription returned by
Tower.SubscribePayment (channeldb control tower, not in src/) delivers the
current state first, then each later transition in order, and closes the
update channel once a terminal update has been delivered. -/
def SubscriptionModel.events (s : SubscriptionModel) : List TrackEvent :=
  (s.current :: s.future).map TrackEvent.update ++
    (if paymentTerminal s.lastState.status then [TrackEvent.closed] else [])

/-- Modelled from the spec: Tower.SubscribePayment (not in src/) fails with
ErrPaymentNotInitiated for a PaymentHash no payment was ever initiated for,
and returns the live subscription otherwise. -/
def subscribePaymentModel (store : Nat → Option SubscriptionModel)
    (hash : Nat) : Except ErCode (List TrackEvent) :=
  match store hash with
  | none => .error ErCode.paymentNotInitiated
  | some s => .ok s.events

/-- An htlc event received from the htlc subscription. -/
structure HtlcEventModel where
  seq : Nat
  deriving DecidableEq

/-- The rpc rendering of an htlc event. -/
structure RpcHtlcEvent where
  seq : Nat
  deriving DecidableEq

def rpcHtlcOf (e : HtlcEventModel) : RpcHtlcEvent :=
  { seq := e.seq }

/-- One event the select inside Server.SubscribeHtlcEvents can wake on. -/
inductive HtlcStreamEvent
  | update (e : HtlcEventModel)
  | ctxDone (e : ErCode)
  | clientQuit
  | quitSignal
  deriving DecidableEq

/-- The for/select loop of Server.SubscribeHtlcEvents, as a recursion over
the events the select wakes on in order, with the same result convention as
Server.trackPaymentLoop. -/
def Server.subscribeHtlcLoop
    (rpcHtlcEvent : HtlcEventModel → Except ErCode RpcHtlcEvent)
    (send : RpcHtlcEvent → Option ErCode) :
    List HtlcStreamEvent → List RpcHtlcEvent × Option (Option ServerError)
  | [] => ([], none)
  | HtlcStreamEvent.update ev :: rest =>
    match rpcHtlcEvent ev with
    | .error e => ([], some (some (ServerError.native e)))
    | .ok rpcEvent =>
      match send rpcEvent with
      | some e => ([], some (some (ServerError.native e)))
      | none =>
        (rpcEvent :: (Server.subscribeHtlcLoop rpcHtlcEvent send rest).1,
         (Server.subscribeHtlcLoop rpcHtlcEvent send rest).2)
  | HtlcStreamEvent.ctxDone e :: _ => ([], some (some (ServerError.native e)))
  | HtlcStreamEvent.clientQuit :: _ =>
    ([], some (some (ServerError.native (ErCode.generic ("htlc event subscription terminated")))))
  | HtlcStreamEvent.quitSignal :: _ =>
    ([], some (some (ServerError.native ErCode.serverShuttingDown)))

/-- A mission-control directed node pair. -/
structure DirectedPair where
  fromNode : Nat
  toNode : Nat
  deriving DecidableEq

/-- routing.TimedPairResult: the failure and success watermarks; a time is
none for the Go zero time and some unix-seconds value otherwise; the amounts
are uint64 millisatoshi values. -/
structure TimedPairResult where
  failTime : Option Int
  failAmt : Nat
  successTime : Option Int
  successAmt : Nat
  deriving DecidableEq

/-- One entry of the mission-control history snapshot. -/
structure MCPairSnapshot where
  pair : DirectedPair
  timedPairResult : TimedPairResult
  deriving DecidableEq

/-- The PairData rpc struct. -/
structure PairData where
  failTime : Int
  failAmtSat : Int
  failAmtMsat : Int
  successTime : Int
  successAmtSat : Int
  successAmtMsat : Int
  deriving DecidableEq

/-- The PairHistory rpc struct: the pair endpoints and its marshaled data. -/
structure PairHistoryRpc where
  nodeFrom : Nat
  nodeTo : Nat
  history : PairData
  deriving DecidableEq

structure QueryMissionControlResponseModel where
  pairs : List PairHistoryRpc
  deriving DecidableEq

/-- int64(n) for a uint64 value n: two's-complement reinterpretation. -/
def toInt64 (n : Nat) : Int :=
  if n % 18446744073709551616 < 9223372036854775808 then
    ((n % 18446744073709551616 : Nat) : Int)
  else
    ((n % 18446744073709551616 : Nat) : Int) - 18446744073709551616

/-- toRPCPairData: MilliSatoshi.ToSatoshis is integer division by 1000; the
FailTime and SuccessTime fields keep their zero value unless the Go time is
nonzero, in which case they carry its unix seconds. -/
def toRPCPairData (d : TimedPairResult) : PairData :=
  { failTime := (match d.failTime with | some u => u | none => 0)
    failAmtSat := toInt64 (d.failAmt / 1000)
    failAmtMsat := toInt64 d.failAmt
    successTime := (match d.successTime with | some u => u | none => 0)
    successAmtSat := toInt64 (d.successAmt / 1000)
    successAmtMsat := toInt64 d.successAmt }

/-- Server.QueryMissionControl over a mission-control history snapshot: the
loop copies each snapshot pair into a PairHistory entry of its own,
appending in snapshot order. -/
def Server.QueryMissionControl (snapshot : List MCPairSnapshot) :
    QueryMissionControlResponseModel :=
  { pairs :=
      snapshot.foldl
        (fun acc p =>
          acc ++ [{ nodeFrom := p.pair.fromNode
                    nodeTo := p.pair.toNode
                    history := toRPCPairData p.timedPairResult }])
        [] }

/-- The request fields Server.BuildRoute reads. -/
structure BuildRouteRequestModel where
  amtMsat : Int
  outgoingChanId : Nat
  hopPubkeys : List (List Nat)
  finalCltvDelta : Int
  deriving DecidableEq

/-- uint64(i) for an int64 value i: two's-complement reinterpretation. -/
def intToUInt64 (i : Int) : Nat :=
  (i % 18446744073709551616).toNat

/-- The parameter-preparation block of Server.BuildRoute: a zero AmtMsat
means no amount (nil pointer passed on) and a zero OutgoingChanId means no
fixed outgoing channel (nil pointer passed on). -/
def prepareBuildRouteParams (req : BuildRouteRequestModel) :
    Option Nat × Option Nat :=
  ((if req.amtMsat ≠ 0 then some (intToUInt64 req.amtMsat) else none),
   (if req.outgoingChanId ≠ 0 then some req.outgoingChanId else none))

/-- The hop-unmarshaling loop of Server.BuildRoute. -/
def unmarshalHops (newVertex : List Nat → Except ErCode (List Nat)) :
    List (List Nat) → Except ErCode (List (List Nat))
  | [] => .ok []
  | b :: rest =>
    match newVertex b with
    | .error e => .error e
    | .ok v =>
      match unmarshalHops newVertex rest with
      | .error e => .error e
      | .ok vs => .ok (v :: vs)

/-- The parameters Router.BuildRoute receives. -/
structure BuildRouteParams where
  amt : Option Nat
  hops : List (List Nat)
  outgoingChan : Option Nat
  finalCltvDelta : Int
  deriving DecidableEq

structure BuildRouteResponseModel where
  route : Nat
  deriving DecidableEq

/-- Server.BuildRoute: unmarshal the hop pubkeys, prepare the amount and
outgoing-channel parameters (zero meaning absent), call Router.BuildRoute
and marshal the resulting route. -/
def Server.BuildRoute (req : BuildRouteRequestModel)
    (newVertex : List Nat → Except ErCode (List Nat))
    (router : BuildRouteParams → Except ErCode Nat)
    (marshalRoute : Nat → Except ErCode Nat) :
    Except ServerError BuildRouteResponseModel :=
  match unmarshalHops newVertex req.hopPubkeys with
  | .error e => .error (.native e)
  | .ok hops =>
    match router { amt := (prepareBuildRouteParams req).1, hops := hops,
                   outgoingChan := (prepareBuildRouteParams req).2,
                   finalCltvDelta := req.finalCltvDelta } with
    | .error e => .error (.native e)
    | .ok rt =>
      match marshalRoute rt with
      | .error e => .error (.native e)
      | .ok rpcRoute => .ok { route := rpcRoute }

/-- Folding with singleton appends builds exactly the mapped list, in order. -/
theorem foldl_append_singleton_eq_map {α β : Type} (f : α → β) (l : List α)
    (acc : List β) :
    l.foldl (fun a x => a ++ [f x]) acc = acc ++ l.map f := by
  induction l generalizing acc with
  | nil => simp
  | cons x xs ih => simp [List.foldl, ih]

/-- The condition under which the trackPayment loop forwards an update. -/
def keepUpdate (noInflightUpdates : Bool) (p : MPPayment) : Bool :=
  if noInflightUpdates ∧ p.status = PaymentStatus.inFlight then false else true

theorem keepUpdate_false_eq (l : List MPPayment) :
    l.filter (keepUpdate false) = l := by
  induction l with
  | nil => rfl
  | cons x xs ih => simp [List.filter_cons, keepUpdate, ih]

theorem keepUpdate_true_eq (p : MPPayment) :
    keepUpdate true p = !decide (p.status = PaymentStatus.inFlight) := by
  by_cases h : p.status = PaymentStatus.inFlight <;> simp [keepUpdate, h]

/-- Processing a block of successfully marshaled and sent updates delivers
exactly the non-skipped ones, in order, and then continues with the tail
events. -/
theorem trackPaymentLoop_updates (noInflightUpdates : Bool)
    (m : MPPayment → RpcPayment) (updates : List MPPayment)
    (tail : List TrackEvent) :
    Server.trackPaymentLoop noInflightUpdates (fun p => Except.ok (m p)) (fun _ => none)
        (updates.map TrackEvent.update ++ tail)
      = ((updates.filter (keepUpdate noInflightUpdates)).map m ++
          (Server.trackPaymentLoop noInflightUpdates (fun p => Except.ok (m p))
            (fun _ => none) tail).1,
         (Server.trackPaymentLoop noInflightUpdates (fun p => Except.ok (m p))
            (fun _ => none) tail).2) := by
  induction updates with
  | nil => simp
  | cons u us ih =>
    simp only [List.map_cons, List.cons_append, Server.trackPaymentLoop]
    by_cases h : noInflightUpdates ∧ u.status = PaymentStatus.inFlight
    · rw [if_pos h]
      have hk : keepUpdate noInflightUpdates u = false := by
        simp [keepUpdate, h]
      simp [List.filter_cons, hk, ih]
    · rw [if_neg h]
      have hk : keepUpdate noInflightUpdates u = true := by
        simp [keepUpdate, h]
      simp [List.filter_cons, hk, ih]

/-- The analogue of trackPaymentLoop_updates for the htlc-event loop. -/
theorem subscribeHtlcLoop_updates (r : HtlcEventModel → RpcHtlcEvent)
    (updates : List HtlcEventModel) (tail : List HtlcStreamEvent) :
    Server.subscribeHtlcLoop (fun e => Except.ok (r e)) (fun _ => none)
        (updates.map HtlcStreamEvent.update ++ tail)
      = (updates.map r ++
          (Server.subscribeHtlcLoop (fun e => Except.ok (r e)) (fun _ => none) tail).1,
         (Server.subscribeHtlcLoop (fun e => Except.ok (r e)) (fun _ => none) tail).2) := by
  induction updates with
  | nil => simp
  | cons u us ih =>
    simp only [List.map_cons, List.cons_append, Server.subscribeHtlcLoop]
    simp [ih]

/-- Closed form of n iterated Stop calls on a fresh server: the shutdown
counter wraps modulo 2^32, the quit channel is closed from the first call
on, and a double-close panic occurs exactly from call 2^32 + 1 on. -/
theorem stopIter_newServer (n : Nat) :
    stopIter n newServer
      = ({ started := 0, shutdown := n % 4294967296,
           forwardInterceptorActive := 0, quitClosed := decide (1 ≤ n) },
         decide (4294967297 ≤ n)) := by
  induction n with
  | zero => simp [stopIter, newServer]
  | succ k ih =>
    simp only [stopIter]
    rw [ih]
    by_cases h2 : 1 ≤ k
    case neg =>
      have hk : k = 0 := by omega
      subst hk
      decide
    case pos =>
      have hm : (k % 4294967296 + 1) % 4294967296 = (k + 1) % 4294967296 := by
        omega
      have hq : decide (1 ≤ k) = true := decide_eq_true h2
      have hq1 : decide (1 ≤ k + 1) = true := decide_eq_true (by omega)
      by_cases h1 : (k + 1) % 4294967296 = 1
      · have hf1 : decide (4294967297 ≤ k + 1) = true := decide_eq_true (by omega)
        simp [Server.Stop, hm, h1, hq, hq1, hf1]
        omega
      · have hff : decide (4294967297 ≤ k + 1) = decide (4294967297 ≤ k) :=
          decide_eq_decide.mpr (by omega)
        simp [Server.Stop, hm, h1, hq, hq1, hff]
        omega

/-- Claim C1: at most one HtlcInterceptor session is active at a time.
While the session flag is held, a second call returns the
interceptor-already-exists error and leaves the state untouched; from the
idle state a call runs the session, and — whatever the session result — the
flag is released on exit, so a retry after the first session ends starts
from the idle state again and succeeds. The guard is the single
compare-and-set embodied by tryAcquireInterceptor. -/
theorem htlcInterceptor_single_session (st : ServerState) (runResult : Option ErCode) :
    (st.forwardInterceptorActive ≠ 0 →
      Server.HtlcInterceptor st runResult
        = (st, some (ServerError.native ErCode.interceptorAlreadyExists))) ∧
    (st.forwardInterceptorActive = 0 →
      Server.HtlcInterceptor st runResult
        = ({ st with forwardInterceptorActive := 0 }, runResult.map ServerError.native)) := by
  constructor
  · intro h
    simp [Server.HtlcInterceptor, tryAcquireInterceptor, h]
  · intro h
    simp [Server.HtlcInterceptor, tryAcquireInterceptor, releaseInterceptor, h]

/-- Witness for htlcInterceptor_single_session at concrete server states. -/
theorem htlcInterceptor_single_session_witness :
    Server.HtlcInterceptor
        { started := 0, shutdown := 0, forwardInterceptorActive := 1, quitClosed := false }
        none
      = ({ started := 0, shutdown := 0, forwardInterceptorActive := 1, quitClosed := false },
         some (ServerError.native ErCode.interceptorAlreadyExists)) ∧
    Server.HtlcInterceptor
        { started := 0, shutdown := 0, forwardInterceptorActive := 0, quitClosed := false }
        (some ErCode.serverShuttingDown)
      = ({ started := 0, shutdown := 0, forwardInterceptorActive := 0, quitClosed := false },
         some (ServerError.native ErCode.serverShuttingDown)) := by
  constructor
  · exact (htlcInterceptor_single_session _ none).1 (by decide)
  · have h := (htlcInterceptor_single_session
      { started := 0, shutdown := 0, forwardInterceptorActive := 0, quitClosed := false }
      (some ErCode.serverShuttingDown)).2 rfl
    simpa using h

/-- Claim C9 counterexample: Stop guards the close with a wrapping int32
counter, so on the 4294967297-th call to Stop the counter passes the
first-call guard again and the already-closed quit channel is closed a
second time, which panics — the claimed at-most-once property fails for
call sequences that long. -/
theorem stop_wraparound_double_close :
    stopIter 4294967297 newServer
      = ({ started := 0, shutdown := 1, forwardInterceptorActive := 0, quitClosed := true },
         true) := by
  rw [stopIter_newServer]
  decide

/-- Claim C9 (amended): for every sequence of at most 2^32 Stop calls on a
fresh server, only the first call closes the quit channel, no call panics,
every call returns nil, and the net state change is confined to the wrapping
shutdown counter; Start always returns nil and never changes anything except
its own started counter, so no Start call beyond the counter has any
effect. -/
theorem stop_idempotent_below_wraparound (n : Nat) (st : ServerState)
    (h : n ≤ 4294967296) :
    ((stopIter n newServer).2 = false) ∧
    ((stopIter n newServer).1.quitClosed = decide (1 ≤ n)) ∧
    ((stopIter n newServer).1.shutdown = n % 4294967296) ∧
    ((Server.Start st).2 = none) ∧
    ((Server.Start st).1.shutdown = st.shutdown) ∧
    ((Server.Start st).1.quitClosed = st.quitClosed) ∧
    ((Server.Start st).1.forwardInterceptorActive = st.forwardInterceptorActive) := by
  rw [stopIter_newServer]
  refine ⟨?_, rfl, rfl, rfl, rfl, rfl, rfl⟩
  simp only [decide_eq_false_iff_not]
  omega

/-- Witness for stop_idempotent_below_wraparound at a 3-call sequence. -/
theorem stop_idempotent_below_wraparound_witness :
    (stopIter 3 newServer).2 = false ∧ (stopIter 3 newServer).1.quitClosed = true := by
  have h := stop_idempotent_below_wraparound 3 newServer (by norm_num)
  exact ⟨h.1, h.2.1.trans (by decide)⟩

/-- Claim C2 counterexample: an in-flight duplicate and an already-paid
duplicate are both rejected with the same grpc AlreadyExists code; erasing
the human-readable message leaves the two responses identical, so the two
duplicate-payment kinds cannot be told apart by a caller without string
matching, even though the underlying backend errors are distinct. -/
theorem duplicate_error_kinds_collapse :
    (Server.SendPaymentV2 (Except.ok { paymentHash := 1 })
        (sendPaymentAsyncModel
          (fun x => if x = 1 then some PaymentStatus.inFlight else none))
        false
      = SendPaymentStep.reject
          (ServerError.grpc GrpcCode.alreadyExists ErCode.paymentInFlight.string)) ∧
    (Server.SendPaymentV2 (Except.ok { paymentHash := 1 })
        (sendPaymentAsyncModel
          (fun x => if x = 1 then some PaymentStatus.succeeded else none))
        false
      = SendPaymentStep.reject
          (ServerError.grpc GrpcCode.alreadyExists ErCode.alreadyPaid.string)) ∧
    (SendPaymentStep.reject
        (ServerError.grpc GrpcCode.alreadyExists ErCode.paymentInFlight.string)).eraseMsg
      = (SendPaymentStep.reject
          (ServerError.grpc GrpcCode.alreadyExists ErCode.alreadyPaid.string)).eraseMsg ∧
    ErCode.paymentInFlight ≠ ErCode.alreadyPaid := by
  refine ⟨rfl, rfl, rfl, by decide⟩

/-- Claim C2 (amended): a submission whose PaymentHash already has an
in-flight or terminal payment is rejected rather than silently restarted,
in SendPaymentV2 and SendToRouteV2 alike, with the stable grpc code
AlreadyExists carrying the distinct backend error string — ErrPaymentInFlight
for a concurrent payment and ErrAlreadyPaid for a terminal one; the
duplicate condition is distinguishable from other error kinds by the code,
but the two duplicate kinds only by the message string. -/
theorem duplicate_submission_rejected (store : Nat → Option PaymentStatus)
    (p : Payment) (noInflightUpdates : Bool) (prior : PaymentStatus)
    (h : store p.paymentHash = some prior) :
    (Server.SendPaymentV2 (Except.ok p) (sendPaymentAsyncModel store) noInflightUpdates
      = SendPaymentStep.reject
          (ServerError.grpc GrpcCode.alreadyExists (duplicateErr prior).string)) ∧
    (∀ (unmarshalRoute : Nat → Except ErCode Nat)
        (makeHash : List Nat → Except ErCode Nat)
        (marshalAttempt : Nat → Except ErCode Nat)
        (req : SendToRouteReq) (rawRoute rt hsh : Nat) (e : ErCode),
      req.route = some rawRoute → unmarshalRoute rawRoute = Except.ok rt →
      makeHash req.paymentHash = Except.ok hsh →
      (e = ErCode.paymentInFlight ∨ e = ErCode.alreadyPaid) →
      Server.SendToRouteV2 unmarshalRoute makeHash (fun _ _ => (none, some e))
          marshalAttempt req
        = (none, some (ServerError.grpc GrpcCode.alreadyExists e.string))) ∧
    GrpcCode.alreadyExists ≠ GrpcCode.notFound := by
  refine ⟨?_, ?_, by decide⟩
  · cases prior <;>
      simp [Server.SendPaymentV2, sendPaymentAsyncModel, h, duplicateErr]
  · intro unmarshalRoute makeHash marshalAttempt req rawRoute rt hsh e hreq hun hmk he
    rcases he with he | he <;> subst he <;>
      simp [Server.SendToRouteV2, hreq, hun, hmk]

/-- Witness for duplicate_submission_rejected at concrete inputs. -/
theorem duplicate_submission_rejected_witness :
    Server.SendPaymentV2 (Except.ok { paymentHash := 2 })
        (sendPaymentAsyncModel
          (fun x => if x = 2 then some PaymentStatus.succeeded else none))
        true
      = SendPaymentStep.reject
          (ServerError.grpc GrpcCode.alreadyExists ErCode.alreadyPaid.string) ∧
    Server.SendToRouteV2 (fun r => Except.ok r) (fun _ => Except.ok 0)
        (fun _ _ => (none, some ErCode.paymentInFlight)) (fun a => Except.ok a)
        { route := some 5, paymentHash := [] }
      = (none, some (ServerError.grpc GrpcCode.alreadyExists
          ErCode.paymentInFlight.string)) := by
  have h := duplicate_submission_rejected
      (fun x => if x = 2 then some PaymentStatus.succeeded else none)
      { paymentHash := 2 } true PaymentStatus.succeeded (by decide)
  exact ⟨h.1, h.2.1 (fun r => Except.ok r) (fun _ => Except.ok 0)
      (fun a => Except.ok a) { route := some 5, paymentHash := [] }
      5 5 0 ErCode.paymentInFlight rfl rfl rfl (Or.inl rfl)⟩

/-- Claim C3: when SendToRoute returns both an attempt record and an error,
the attempt record wins — the marshaled attempt is returned with a nil
error and the SendToRoute error is not surfaced; the error reaches the
caller only when no attempt record is present. -/
theorem sendToRouteV2_attempt_precedence
    (unmarshalRoute : Nat → Except ErCode Nat)
    (makeHash : List Nat → Except ErCode Nat)
    (sendToRoute : Nat → Nat → Option Nat × Option ErCode)
    (marshalAttempt : Nat → Except ErCode Nat)
    (req : SendToRouteReq) (rawRoute rt hsh : Nat)
    (hreq : req.route = some rawRoute)
    (hun : unmarshalRoute rawRoute = Except.ok rt)
    (hmk : makeHash req.paymentHash = Except.ok hsh) :
    (∀ (a : Nat) (e : Option ErCode) (rpcAttempt : Nat),
      sendToRoute hsh rt = (some a, e) →
      marshalAttempt a = Except.ok rpcAttempt →
      Server.SendToRouteV2 unmarshalRoute makeHash sendToRoute marshalAttempt req
        = (some rpcAttempt, none)) ∧
    (∀ e : ErCode,
      sendToRoute hsh rt = (none, some e) →
      Server.SendToRouteV2 unmarshalRoute makeHash sendToRoute marshalAttempt req
        = (none, some (if e = ErCode.paymentInFlight ∨ e = ErCode.alreadyPaid
            then ServerError.grpc GrpcCode.alreadyExists e.string
            else ServerError.native e))) := by
  constructor
  · intro a e rpcAttempt hsend hmar
    simp [Server.SendToRouteV2, hreq, hun, hmk, hsend, hmar]
  · intro e hsend
    by_cases hc : e = ErCode.paymentInFlight ∨ e = ErCode.alreadyPaid <;>
      simp [Server.SendToRouteV2, hreq, hun, hmk, hsend, hc]

/-- Witness for sendToRouteV2_attempt_precedence: an attempt returned
together with an error yields the attempt and a nil error. -/
theorem sendToRouteV2_attempt_precedence_witness :
    Server.SendToRouteV2 (fun r => Except.ok r) (fun _ => Except.ok 0)
        (fun _ _ => (some 7, some ErCode.alreadyPaid)) (fun a => Except.ok a)
        { route := some 3, paymentHash := [] }
      = (some 7, none) := by
  have h := sendToRouteV2_attempt_precedence (fun r => Except.ok r)
      (fun _ => Except.ok 0) (fun _ _ => (some 7, some ErCode.alreadyPaid))
      (fun a => Except.ok a) { route := some 3, paymentHash := [] }
      3 3 0 rfl rfl rfl
  exact h.1 7 (some ErCode.alreadyPaid) 7 rfl rfl

/-- Claim C4 counterexample: with the no-inflight-updates option set and an
InFlight current state at subscribe time, the first item delivered to the
client is the later Succeeded update, not the subscribe-time current state,
so the first-delivered-item property does not hold for every TrackPayment
subscription. -/
theorem trackPayment_first_item_counterexample :
    (Server.trackPayment
        (Except.ok (SubscriptionModel.events
          { current := { status := PaymentStatus.inFlight, seq := 0 },
            future := [{ status := PaymentStatus.succeeded, seq := 1 }] }))
        true (fun p => Except.ok (rpcOf p)) (fun _ => none)).1
      = [{ status := PaymentStatus.succeeded, seq := 1 }] ∧
    ({ status := PaymentStatus.succeeded, seq := 1 } : RpcPayment)
      ≠ rpcOf { status := PaymentStatus.inFlight, seq := 0 } := by
  constructor
  · rfl
  · decide

/-- Claim C4 (amended): with the no-inflight-updates option unset, the first
delivered item of a TrackPayment subscription is the subscribe-time current
state, even if terminal; under either option, once the terminal update has
been delivered the stream closes with no error, and tracking an
already-terminal payment yields exactly one update (the terminal state) and
then closes without error. With the option set and an InFlight current
state, the leading InFlight updates are skipped instead. -/
theorem trackPayment_first_update_then_close (s : SubscriptionModel) :
    ((Server.trackPayment (Except.ok s.events) false
        (fun p => Except.ok (rpcOf p)) (fun _ => none)).1.head?
      = some (rpcOf s.current)) ∧
    (paymentTerminal s.lastState.status = true →
      Server.trackPayment (Except.ok s.events) false
          (fun p => Except.ok (rpcOf p)) (fun _ => none)
        = ((s.current :: s.future).map rpcOf, some none)) ∧
    (∀ (cur : MPPayment) (noInflightUpdates : Bool),
      paymentTerminal cur.status = true →
      Server.trackPayment
          (Except.ok (SubscriptionModel.events { current := cur, future := [] }))
          noInflightUpdates (fun p => Except.ok (rpcOf p)) (fun _ => none)
        = ([rpcOf cur], some none)) := by
  refine ⟨?_, ?_, ?_⟩
  · simp only [Server.trackPayment, SubscriptionModel.events]
    rw [trackPaymentLoop_updates false rpcOf (s.current :: s.future)]
    simp [keepUpdate_false_eq]
  · intro h
    simp only [Server.trackPayment, SubscriptionModel.events, h, if_pos]
    rw [trackPaymentLoop_updates false rpcOf (s.current :: s.future)
        [TrackEvent.closed]]
    simp [keepUpdate_false_eq, Server.trackPaymentLoop]
  · intro cur noInflightUpdates h
    have hne : cur.status ≠ PaymentStatus.inFlight := by
      intro hc
      rw [hc] at h
      simp [paymentTerminal] at h
    simp [Server.trackPayment, SubscriptionModel.events,
      SubscriptionModel.lastState, h, Server.trackPaymentLoop, hne]

/-- Witness for trackPayment_first_update_then_close on an
already-Succeeded payment, under both option settings. -/
theorem trackPayment_first_update_then_close_witness :
    (Server.trackPayment (Except.ok (SubscriptionModel.events
        { current := { status := PaymentStatus.succeeded, seq := 4 }, future := [] }))
        false (fun p => Except.ok (rpcOf p)) (fun _ => none)).1.head?
      = some (rpcOf { status := PaymentStatus.succeeded, seq := 4 }) ∧
    Server.trackPayment (Except.ok (SubscriptionModel.events
        { current := { status := PaymentStatus.succeeded, seq := 4 }, future := [] }))
        true (fun p => Except.ok (rpcOf p)) (fun _ => none)
      = ([rpcOf { status := PaymentStatus.succeeded, seq := 4 }], some none) := by
  have h := trackPayment_first_update_then_close
      { current := { status := PaymentStatus.succeeded, seq := 4 }, future := [] }
  exact ⟨h.1, h.2.2 { status := PaymentStatus.succeeded, seq := 4 } true (by decide)⟩

/-- Claim C5: with the no-inflight-updates option set, every InFlight update
is skipped without terminating the stream or surfacing an error while every
non-InFlight update is delivered in order, and with the option unset no
update is skipped; in both cases the stream then closes cleanly once the
update channel closes. -/
theorem trackPayment_noinflight_filter (updates : List MPPayment) :
    Server.trackPaymentLoop true (fun p => Except.ok (rpcOf p)) (fun _ => none)
        (updates.map TrackEvent.update ++ [TrackEvent.closed])
      = ((updates.filter
            (fun p => !decide (p.status = PaymentStatus.inFlight))).map rpcOf,
         some none) ∧
    Server.trackPaymentLoop false (fun p => Except.ok (rpcOf p)) (fun _ => none)
        (updates.map TrackEvent.update ++ [TrackEvent.closed])
      = (updates.map rpcOf, some none) := by
  constructor
  · rw [trackPaymentLoop_updates true rpcOf updates [TrackEvent.closed]]
    have hfe : updates.filter (keepUpdate true)
        = updates.filter (fun p => !decide (p.status = PaymentStatus.inFlight)) := by
      induction updates with
      | nil => rfl
      | cons x xs ih => simp [List.filter_cons, keepUpdate_true_eq, ih]
    simp [hfe, Server.trackPaymentLoop]
  · rw [trackPaymentLoop_updates false rpcOf updates [TrackEvent.closed]]
    simp [keepUpdate_false_eq, Server.trackPaymentLoop]

/-- Claim C6: tracking a PaymentHash for which no payment was ever initiated
fails with the grpc NotFound status — a code distinct from the
AlreadyExists code used for duplicates — and delivers no updates. -/
theorem trackPayment_unknown_hash (store : Nat → Option SubscriptionModel)
    (hash : Nat) (noInflightUpdates : Bool)
    (marshalPayment : MPPayment → Except ErCode RpcPayment)
    (send : RpcPayment → Option ErCode)
    (h : store hash = none) :
    Server.trackPayment (subscribePaymentModel store hash) noInflightUpdates
        marshalPayment send
      = ([], some (some (ServerError.grpc GrpcCode.notFound
          ErCode.paymentNotInitiated.string))) ∧
    GrpcCode.notFound ≠ GrpcCode.alreadyExists := by
  refine ⟨?_, by decide⟩
  simp [subscribePaymentModel, h, Server.trackPayment]

/-- Witness for trackPayment_unknown_hash at a concrete empty store. -/
theorem trackPayment_unknown_hash_witness :
    Server.trackPayment (subscribePaymentModel (fun _ => none) 9) false
        (fun p => Except.ok (rpcOf p)) (fun _ => none)
      = ([], some (some (ServerError.grpc GrpcCode.notFound
          ErCode.paymentNotInitiated.string))) := by
  exact (trackPayment_unknown_hash (fun _ => none) 9 false
      (fun p => Except.ok (rpcOf p)) (fun _ => none) rfl).1

/-- Claim C7: a TrackPayment delivery wait or an HTLC-event wait that wakes
on the server quit signal — which Stop makes ready by closing the quit
channel — returns at that very step with the distinguished shutting-down
error rather than staying blocked, after any prefix of delivered items and
for every waiting subscriber loop alike. -/
theorem shutdown_unblocks_waits (items : List MPPayment)
    (hev : List HtlcEventModel) (noInflightUpdates : Bool) :
    (Server.trackPaymentLoop noInflightUpdates
        (fun p => Except.ok (rpcOf p)) (fun _ => none)
        (items.map TrackEvent.update ++ [TrackEvent.quitSignal])).2
      = some (some (ServerError.native ErCode.serverShuttingDown)) ∧
    (Server.subscribeHtlcLoop (fun e => Except.ok (rpcHtlcOf e)) (fun _ => none)
        (hev.map HtlcStreamEvent.update ++ [HtlcStreamEvent.quitSignal])).2
      = some (some (ServerError.native ErCode.serverShuttingDown)) ∧
    (Server.Stop newServer).1.quitClosed = true := by
  refine ⟨?_, ?_, by decide⟩
  · rw [trackPaymentLoop_updates noInflightUpdates rpcOf items
        [TrackEvent.quitSignal]]
    rfl
  · rw [subscribeHtlcLoop_updates rpcHtlcOf hev [HtlcStreamEvent.quitSignal]]
    rfl

/-- Claim C8: the QueryMissionControl response contains exactly one entry
per snapshot pair, in snapshot order, and each entry carries its own pair's
From and To node identifiers together with the marshaled copy of that
pair's own history. -/
theorem queryMissionControl_entries (snapshot : List MCPairSnapshot) :
    (Server.QueryMissionControl snapshot).pairs
      = snapshot.map (fun p =>
          { nodeFrom := p.pair.fromNode, nodeTo := p.pair.toNode,
            history := toRPCPairData p.timedPairResult }) ∧
    (Server.QueryMissionControl snapshot).pairs.length = snapshot.length := by
  have hmain : (Server.QueryMissionControl snapshot).pairs
      = snapshot.map (fun p =>
          ({ nodeFrom := p.pair.fromNode, nodeTo := p.pair.toNode,
             history := toRPCPairData p.timedPairResult } : PairHistoryRpc)) := by
    simp [Server.QueryMissionControl,
      foldl_append_singleton_eq_map (fun p : MCPairSnapshot =>
        ({ nodeFrom := p.pair.fromNode, nodeTo := p.pair.toNode,
           history := toRPCPairData p.timedPairResult } : PairHistoryRpc))
        snapshot []]
  refine ⟨hmain, ?_⟩
  rw [hmain]
  simp

/-- Claim C10: BuildRoute interprets a zero request amount as no amount and
a zero outgoing channel id as no fixed outgoing channel, so the parameters
handed to route construction can never carry an explicit zero amount or the
literal channel id 0; the route-construction call receives exactly the
prepared parameters. -/
theorem buildRoute_zero_sentinels (req : BuildRouteRequestModel) :
    (req.amtMsat = 0 → (prepareBuildRouteParams req).1 = none) ∧
    (req.outgoingChanId = 0 → (prepareBuildRouteParams req).2 = none) ∧
    ((prepareBuildRouteParams req).2 ≠ some 0) ∧
    (-9223372036854775808 ≤ req.amtMsat → req.amtMsat < 9223372036854775808 →
      (prepareBuildRouteParams req).1 ≠ some 0) ∧
    (∀ (newVertex : List Nat → Except ErCode (List Nat))
        (router : BuildRouteParams → Except ErCode Nat)
        (marshalRoute : Nat → Except ErCode Nat) (hops : List (List Nat)),
      unmarshalHops newVertex req.hopPubkeys = Except.ok hops →
      Server.BuildRoute req newVertex router marshalRoute
        = (match router { amt := (prepareBuildRouteParams req).1, hops := hops,
                          outgoingChan := (prepareBuildRouteParams req).2,
                          finalCltvDelta := req.finalCltvDelta } with
           | .error e => .error (.native e)
           | .ok rt =>
             match marshalRoute rt with
             | .error e => .error (.native e)
             | .ok rpcRoute => .ok { route := rpcRoute })) := by
  refine ⟨?_, ?_, ?_, ?_, ?_⟩
  · intro h
    simp [prepareBuildRouteParams, h]
  · intro h
    simp [prepareBuildRouteParams, h]
  · simp only [prepareBuildRouteParams]
    by_cases hc : req.outgoingChanId = 0
    · simp [hc]
    · rw [if_pos hc]
      simp [hc]
  · intro hlo hhi
    by_cases h0 : req.amtMsat = 0
    · simp [prepareBuildRouteParams, h0]
    · simp only [prepareBuildRouteParams]
      rw [if_pos h0]
      intro hc
      rw [Option.some_inj] at hc
      simp only [intToUInt64] at hc
      have h1 : req.amtMsat % 18446744073709551616 ≤ 0 := Int.toNat_eq_zero.mp hc
      omega
  · intro newVertex router marshalRoute hops hunm
    simp [Server.BuildRoute, hunm]

/-- Witness for buildRoute_zero_sentinels at a concrete zeroed request. -/
theorem buildRoute_zero_sentinels_witness :
    (prepareBuildRouteParams
      { amtMsat := 0, outgoingChanId := 0, hopPubkeys := [], finalCltvDelta := 9 }).1
      = none ∧
    (prepareBuildRouteParams
      { amtMsat := 0, outgoingChanId := 0, hopPubkeys := [], finalCltvDelta := 9 }).2
      = none := by
  have h := buildRoute_zero_sentinels
      { amtMsat := 0, outgoingChanId := 0, hopPubkeys := [], finalCltvDelta := 9 }
  exact ⟨h.1 rfl, h.2.1 rfl⟩
